import Mathlib

/-!
Shallow embedding of the data-fetch/fallback/pagination orchestration layer
of a Dragon Ball catalog viewer (SvelteKit app).

Embedded source files:
* `src/lib/mockData.js`  — the static fallback dataset (`mockCharacters`, `mockPlanets`);
* `src/lib/api.js`       — `DragonBallAPI` (getAllCharacters, getCharacterById,
  searchCharacters, getPlanets) and `handleApiError`;
* `src/routes/+page.svelte` — the list-screen view-state controller
  (`loadCharacters`, `searchCharacters`, `loadMore`);
* the detail-screen controller (`loadCharacter`).

The network is modelled as an oracle value of type `FetchOutcome` supplied to
each operation: a transport error (a rejected `fetch`), or an arrived response
with an HTTP status and a parse result for its body.  JavaScript exceptions are
modelled with `Except String` (the string is the `Error` message); a `try/catch`
becomes a `match` on the `Except`.  JS string helpers used by the source
(`includes`, `toLowerCase`, `parseInt`, `slice`, `Math.ceil`) are modelled
explicitly below.
-/

/-- JS `String.prototype.includes` on the needle, checked at the head of the
haystack: true when `needle` is a prefix of the haystack character list. -/
def charsAtHead (needle : List Char) : List Char → Bool
  | [] => needle.isEmpty
  | b :: bs =>
    match needle with
    | [] => true
    | a :: as => a == b && charsAtHead as bs

/-- JS `hay.includes(needle)`: `needle` occurs contiguously somewhere in `hay`
(the empty needle always occurs). -/
def charsContain (needle : List Char) : List Char → Bool
  | [] => needle.isEmpty
  | c :: rest => charsAtHead needle (c :: rest) || charsContain needle rest

/-- JS `s.includes(sub)` on strings. -/
def strIncludes (s sub : String) : Bool :=
  charsContain sub.data s.data

/-- JS `toLowerCase` on one character (the ASCII range, which covers every
character this code compares). -/
def charLower (c : Char) : Char :=
  if 'A' ≤ c && c ≤ 'Z' then Char.ofNat (c.toNat + 32) else c

/-- JS `s.toLowerCase()`. -/
def strLower (s : String) : String :=
  ⟨s.data.map charLower⟩

/-- JS `Response.ok`: HTTP status in the inclusive range 200–299. -/
def jsStatusOk (status : Nat) : Bool :=
  200 ≤ status && status ≤ 299

/-- Value of a list of decimal digit characters (the digits of the number, most
significant first). -/
def digitsVal (ds : List Char) : Nat :=
  ds.foldl (fun acc c => acc * 10 + (c.toNat - '0'.toNat)) 0

/-- JS `parseInt(s)` (radix 10): skip leading spaces, optional sign, then the
longest prefix of decimal digits; `none` models `NaN` (no digits found). -/
def jsParseInt (s : String) : Option Int :=
  let cs := s.data.dropWhile (fun c => c == ' ')
  let signed : Bool × List Char :=
    match cs with
    | '-' :: rest => (true, rest)
    | '+' :: rest => (false, rest)
    | _ => (false, cs)
  let ds := signed.2.takeWhile Char.isDigit
  if ds.isEmpty then none
  else if signed.1 then some (-(digitsVal ds : Int))
  else some (digitsVal ds : Int)

/-- A character record as in `mockData.js` / the remote `/characters` items. -/
structure Character where
  id : Nat
  name : String
  ki : String
  maxKi : String
  race : String
  gender : String
  description : String
  image : String
  affiliation : String
deriving DecidableEq, Repr

/-- A planet record as in `mockData.js`. -/
structure Planet where
  id : Nat
  name : String
  isDestroyed : Bool
  description : String
deriving DecidableEq, Repr

/-- Pagination metadata of the response envelope
(`meta` in `{ items, meta }`). -/
structure Meta where
  totalItems : Nat
  itemCount : Nat
  itemsPerPage : Nat
  totalPages : Nat
  currentPage : Nat
deriving DecidableEq, Repr

/-- The paginated response envelope `{ items, meta }`. -/
structure Envelope (α : Type) where
  items : List α
  meta : Meta
deriving DecidableEq, Repr

/-- `mockData.js`: the Goku record. -/
def goku : Character :=
  { id := 1, name := "Goku", ki := "60,000,000",
    maxKi := "90,000,000,000,000,000,000", race := "Saiyan", gender := "Male",
    description := "Goku is a Saiyan warrior originally sent to Earth as an infant to conquer the planet. However, an accident alters his memory, allowing him to grow up to become Earth's greatest defender.",
    image := "https://dragonball-api.com/characters/goku_normal.webp",
    affiliation := "Z Fighter" }

/-- `mockData.js`: the Vegeta record. -/
def vegeta : Character :=
  { id := 2, name := "Vegeta", ki := "54,000,000",
    maxKi := "19,400,000,000,000,000,000", race := "Saiyan", gender := "Male",
    description := "Prince of the fallen Saiyan race and one of the main characters of the Dragon Ball series. Originally a villain, he becomes a crucial ally and one of the strongest fighters.",
    image := "https://dragonball-api.com/characters/vegeta_normal.webp",
    affiliation := "Z Fighter" }

/-- `mockData.js`: the Piccolo record. -/
def piccolo : Character :=
  { id := 3, name := "Piccolo", ki := "2,000,000", maxKi := "500,000,000",
    race := "Namekian", gender := "Male",
    description := "Originally the reincarnation of the evil Piccolo Daimaō, he becomes one of Earth's greatest defenders and Gohan's mentor.",
    image := "https://dragonball-api.com/characters/piccolo_normal.webp",
    affiliation := "Z Fighter" }

/-- `mockData.js`: the Gohan record. -/
def gohan : Character :=
  { id := 4, name := "Gohan", ki := "45,000,000",
    maxKi := "40,000,000,000,000,000,000", race := "Half-Saiyan", gender := "Male",
    description := "Goku's eldest son and one of the strongest fighters in the universe. Though preferring peace and studies, he has incredible hidden power.",
    image := "https://dragonball-api.com/characters/gohan_normal.webp",
    affiliation := "Z Fighter" }

/-- `mockData.js`: the Frieza record. -/
def frieza : Character :=
  { id := 5, name := "Frieza", ki := "60,000,000",
    maxKi := "1,700,000,000,000,000,000", race := "Frieza Race", gender := "Male",
    description := "The emperor of the universe and one of the most powerful villains in Dragon Ball. Known for his cruelty and incredible transformations.",
    image := "https://dragonball-api.com/characters/frieza_normal.webp",
    affiliation := "Frieza Force" }

/-- `mockData.js`: the Cell record. -/
def cell : Character :=
  { id := 6, name := "Cell", ki := "900,000,000",
    maxKi := "2,230,000,000,000,000,000", race := "Android", gender := "Male",
    description := "A bio-android created by Dr. Gero, composed of cells from many fighters including Goku, Vegeta, Piccolo, and Frieza.",
    image := "https://dragonball-api.com/characters/cell_normal.webp",
    affiliation := "Red Ribbon Army" }

/-- `mockData.js`: `mockCharacters`, the static fallback character dataset. -/
def mockCharacters : List Character :=
  [goku, vegeta, piccolo, gohan, frieza, cell]

/-- `mockData.js`: `mockPlanets`, the static fallback planet dataset. -/
def mockPlanets : List Planet :=
  [ { id := 1, name := "Earth", isDestroyed := false,
      description := "The home planet of humanity and the main setting for most of Dragon Ball's story." },
    { id := 2, name := "Namek", isDestroyed := true,
      description := "The home planet of the Namekians, known for creating the Dragon Balls." },
    { id := 3, name := "Vegeta", isDestroyed := true,
      description := "The former home planet of the Saiyan race, destroyed by Frieza." } ]

/-- Outcome of one `fetch` call, supplied as an oracle: either the promise
rejects with an error message (transport failure), or a response arrives with an
HTTP status together with the parse result of `response.json()` (`.error` models
a body that fails to parse, carrying the parse error's message). -/
inductive FetchOutcome (α : Type) where
  | transportError (msg : String)
  | response (status : Nat) (body : Except String α)

/-- The shared `try`-block shape of every `DragonBallAPI` method: a rejected
`fetch` propagates its error; an arrived response first checks `response.ok`,
throwing `HTTP error! status: {status}` when it fails, then parses the body. -/
def fetchAttempt {α : Type} (net : FetchOutcome α) : Except String α :=
  match net with
  | .transportError msg => .error msg
  | .response status body =>
    if jsStatusOk status then body
    else .error ("HTTP error! status: " ++ toString status)

/-- `api.js` `getAllCharacters`, fallback branch: client-side pagination of
`mockCharacters` (`slice(startIndex, startIndex + limit)` = drop then take) and
a synthesized envelope with `totalPages = Math.ceil(length / limit)`. -/
def getAllCharactersFallback (page limit : Nat) : Envelope Character :=
  let startIndex := (page - 1) * limit
  let paginatedMockData := (mockCharacters.drop startIndex).take limit
  { items := paginatedMockData,
    meta :=
      { totalItems := mockCharacters.length,
        itemCount := paginatedMockData.length,
        itemsPerPage := limit,
        totalPages := (mockCharacters.length + limit - 1) / limit,
        currentPage := page } }

/-- `api.js` `DragonBallAPI.getAllCharacters(page, limit)`: on a successful
fetch-and-parse return the remote envelope unmodified; any caught error is
absorbed into the fallback.  The result is `Except` to record whether an
exception escapes the method (the theorems show it never does). -/
def getAllCharacters (net : FetchOutcome (Envelope Character))
    (page limit : Nat) : Except String (Envelope Character) :=
  match fetchAttempt net with
  | .ok data => .ok data
  | .error _ => .ok (getAllCharactersFallback page limit)

/-- The `find` predicate of `getCharacterById`'s fallback:
`char.id === parseInt(id)` (strict equality; `NaN` compares unequal). -/
def idMatches (id : String) (c : Character) : Bool :=
  jsParseInt id == some (c.id : Int)

/-- `api.js` `DragonBallAPI.getCharacterById(id)`: on success return the parsed
record; on any caught error look the id up in `mockCharacters` by
`char.id === parseInt(id)`, re-throwing `Character not found` when absent. -/
def getCharacterById (net : FetchOutcome Character) (id : String) :
    Except String Character :=
  match fetchAttempt net with
  | .ok data => .ok data
  | .error _ =>
    match mockCharacters.find? (idMatches id) with
    | some character => .ok character
    | none => .error "Character not found"

/-- The client-side filtering block shared by both branches of
`searchCharacters`: the name filter then the race filter, each applied only
when its argument is truthy (a non-empty string), each a case-insensitive
substring test. -/
def applyFilters (name race : String) (items : List Character) : List Character :=
  let afterName :=
    if name ≠ "" then
      items.filter (fun character => strIncludes (strLower character.name) (strLower name))
    else items
  if race ≠ "" then
    afterName.filter (fun character => strIncludes (strLower character.race) (strLower race))
  else afterName

/-- `api.js` `searchCharacters`, fallback branch: filter the entire
`mockCharacters` dataset and synthesize an envelope whose `totalItems` and
`itemCount` are both the filtered length, with `totalPages = 1`. -/
def searchCharactersFallback (name race : String) (page limit : Nat) :
    Envelope Character :=
  let filteredItems := applyFilters name race mockCharacters
  { items := filteredItems,
    meta :=
      { totalItems := filteredItems.length,
        itemCount := filteredItems.length,
        itemsPerPage := limit,
        totalPages := 1,
        currentPage := page } }

/-- `api.js` `DragonBallAPI.searchCharacters(name, race, page, limit)`: fetch
one page, filter that page's items client-side and return `{...data, items:
filteredItems}` (the remote `meta` is kept unchanged); any caught error is
absorbed into the fallback search. -/
def searchCharacters (net : FetchOutcome (Envelope Character))
    (name race : String) (page limit : Nat) :
    Except String (Envelope Character) :=
  match fetchAttempt net with
  | .ok data => .ok { data with items := applyFilters name race data.items }
  | .error _ => .ok (searchCharactersFallback name race page limit)

/-- `api.js` `DragonBallAPI.getPlanets()`, fallback branch: the full static
planet list wrapped in an envelope with `totalPages = 1`. -/
def getPlanetsFallback : Envelope Planet :=
  { items := mockPlanets,
    meta :=
      { totalItems := mockPlanets.length,
        itemCount := mockPlanets.length,
        itemsPerPage := 10,
        totalPages := 1,
        currentPage := 1 } }

/-- `api.js` `DragonBallAPI.getPlanets()`. -/
def getPlanets (net : FetchOutcome (Envelope Planet)) :
    Except String (Envelope Planet) :=
  match fetchAttempt net with
  | .ok data => .ok data
  | .error _ => .ok getPlanetsFallback

/-- `api.js` `handleApiError(error)`: classify an error by substring inspection
of its message. -/
def handleApiError (msg : String) : String :=
  if strIncludes msg "Failed to fetch" then
    "Network error. Please check your internet connection."
  else if strIncludes msg "404" then
    "Character not found."
  else if strIncludes msg "500" then
    "Server error. Please try again later."
  else
    "An unexpected error occurred. Please try again."

/-- The list screen's reactive view state (`+page.svelte`): the `$state`
declarations `characters`, `loading`, `error`, `currentPage`, `totalPages`,
`hasMore`. -/
structure ListState where
  characters : List Character
  loading : Bool
  error : String
  currentPage : Nat
  totalPages : Nat
  hasMore : Bool
deriving DecidableEq, Repr

/-- `+page.svelte` `loadCharacters(page, reset)` as one atomic state
transition, parameterized by the completed outcome `svc` of the awaited
`DragonBallAPI.getAllCharacters(page, 12)` call: set `loading`/clear `error`,
then on success replace or append the items and refresh the pagination fields
(`totalPages = data.meta?.totalPages || 1`, so a falsy `0` becomes `1`;
`hasMore = page < totalPages`), on a raised error classify it; the `finally`
block clears `loading` on both paths. -/
def loadCharactersStep (st : ListState) (svc : Except String (Envelope Character))
    (page : Nat) (reset : Bool) : ListState :=
  let st1 : ListState := { st with loading := true, error := "" }
  match svc with
  | .ok data =>
    let chars := if reset then data.items else st1.characters ++ data.items
    let tp := if data.meta.totalPages == 0 then 1 else data.meta.totalPages
    { st1 with
        characters := chars,
        totalPages := tp,
        hasMore := decide (page < tp),
        currentPage := page,
        loading := false }
  | .error msg =>
    { st1 with error := handleApiError msg, loading := false }

/-- `+page.svelte` `searchCharacters(name, race)` (the list controller's search
operation), parameterized by the service as a function so that the fixed
arguments `page = 1`, `pageSize = 50` of the call
`DragonBallAPI.searchCharacters(name, race, 1, 50)` appear explicitly: on
success replace the display list and force `hasMore := false`; on a raised
error classify it; the `finally` block clears `loading` on both paths. -/
def searchStep (svc : String → String → Nat → Nat → Except String (Envelope Character))
    (st : ListState) (name race : String) : ListState :=
  let st1 : ListState := { st with loading := true, error := "" }
  match svc name race 1 50 with
  | .ok data =>
    { st1 with characters := data.items, hasMore := false, loading := false }
  | .error msg =>
    { st1 with error := handleApiError msg, loading := false }

/-- `+page.svelte` `loadMore()`: guarded by `!loading && hasMore`; when the
guard passes it performs `loadCharacters(currentPage + 1, false)`.  The second
component counts the fetches issued (0 = no-op, 1 = one `load` call), so the
"no fetch" part of the no-op claim is a statement about the result. -/
def loadMore (st : ListState) (svc : Except String (Envelope Character)) :
    ListState × Nat :=
  if !st.loading && st.hasMore then
    (loadCharactersStep st svc (st.currentPage + 1) false, 1)
  else
    (st, 0)

/-- The detail screen's reactive view state: `character`, `loading`, `error`. -/
structure DetailState where
  character : Option Character
  loading : Bool
  error : String
deriving DecidableEq, Repr

/-- The detail screen's `loadCharacter(id)` as one atomic state transition,
parameterized by the network oracle consumed by the awaited
`DragonBallAPI.getCharacterById(id)`: on success store the record; on a raised
error classify it with `handleApiError`; the `finally` block clears `loading`
on both paths. -/
def loadCharacterStep (st : DetailState) (net : FetchOutcome Character)
    (id : String) : DetailState :=
  let st1 : DetailState := { st with loading := true, error := "" }
  match getCharacterById net id with
  | .ok c => { st1 with character := some c, loading := false }
  | .error msg => { st1 with error := handleApiError msg, loading := false }

set_option maxRecDepth 40000

/-- `handleApiError` never returns the empty string: each of its four branches
is a fixed non-empty message. -/
theorem handleApiError_ne_empty (msg : String) : handleApiError msg ≠ "" := by
  unfold handleApiError
  split
  · decide
  split
  · decide
  split
  · decide
  · decide

/-- Membership in the filtered list: a record survives `applyFilters` exactly
when it is in the input and passes each filter that is switched on (an empty
pattern switches its filter off). -/
theorem mem_applyFilters (name race : String) (items : List Character)
    (c : Character) :
    c ∈ applyFilters name race items ↔
      c ∈ items ∧
      (name = "" ∨ strIncludes (strLower c.name) (strLower name) = true) ∧
      (race = "" ∨ strIncludes (strLower c.race) (strLower race) = true) := by
  unfold applyFilters
  by_cases hn : name = "" <;> by_cases hr : race = "" <;>
    simp [hn, hr, List.mem_filter, and_assoc, and_comm]

/-- `applyFilters` only removes items: its result is a sublist of its input. -/
theorem applyFilters_sublist (name race : String) (items : List Character) :
    (applyFilters name race items).Sublist items := by
  unfold applyFilters
  by_cases hn : name = "" <;> by_cases hr : race = "" <;> simp [hn, hr]

/-- C1 (counterexample): the claimed envelope invariant fails on the code.  On
the fallback path, `listCharacters(2, 12)` returns an envelope with
`totalItems = 6 > 0` but `currentPage = 2 > 1 = totalPages`: the fallback
echoes the requested page even when it lies beyond the last page, so
`currentPage ∈ [1, totalPages]` does not hold. -/
theorem C1_envelope_invariant_counterexample :
    getAllCharacters (FetchOutcome.transportError "Failed to fetch") 2 12
      = .ok (getAllCharactersFallback 2 12) ∧
    0 < (getAllCharactersFallback 2 12).meta.totalItems ∧
    ¬ ((getAllCharactersFallback 2 12).meta.currentPage
        ≤ (getAllCharactersFallback 2 12).meta.totalPages) := by
  refine ⟨rfl, by decide, by decide⟩

/-- C1 (amended): every envelope produced by the fallback paths of
`listCharacters`, `searchCharacters` and `listPlanets` satisfies
`itemCount = items.length`; `currentPage` lies in `[1, totalPages]` whenever
the requested page (which the fallback echoes as `currentPage`) is at least 1
and at most `totalPages` — for the search fallback that means `page = 1`,
since its `totalPages` is the constant 1; the planets fallback satisfies it
unconditionally.  On the network-success path `listCharacters` returns the
remote envelope unmodified, so there the invariant holds exactly when the
remote's own envelope satisfies it. -/
theorem C1_envelope_invariant_amended (page limit status : Nat)
    (name race : String) (data : Envelope Character)
    (hp : 1 ≤ page) (hok : jsStatusOk status = true) :
    (getAllCharactersFallback page limit).meta.itemCount
        = (getAllCharactersFallback page limit).items.length ∧
    (searchCharactersFallback name race page limit).meta.itemCount
        = (searchCharactersFallback name race page limit).items.length ∧
    getPlanetsFallback.meta.itemCount = getPlanetsFallback.items.length ∧
    (page ≤ (getAllCharactersFallback page limit).meta.totalPages →
        1 ≤ (getAllCharactersFallback page limit).meta.currentPage ∧
        (getAllCharactersFallback page limit).meta.currentPage
          ≤ (getAllCharactersFallback page limit).meta.totalPages) ∧
    (page = 1 →
        1 ≤ (searchCharactersFallback name race page limit).meta.currentPage ∧
        (searchCharactersFallback name race page limit).meta.currentPage
          ≤ (searchCharactersFallback name race page limit).meta.totalPages) ∧
    1 ≤ getPlanetsFallback.meta.currentPage ∧
    getPlanetsFallback.meta.currentPage ≤ getPlanetsFallback.meta.totalPages ∧
    getAllCharacters (.response status (.ok data)) page limit = .ok data := by
  refine ⟨rfl, rfl, rfl, ?_, ?_, by decide, by decide, ?_⟩
  · intro h
    exact ⟨hp, h⟩
  · intro h
    subst h
    exact ⟨le_refl 1, le_refl 1⟩
  · simp [getAllCharacters, fetchAttempt, hok]

/-- C1 (witness for the amended theorem) at `page = 1`, `limit = 12`,
`status = 200`. -/
theorem C1_envelope_invariant_amended_witness :
    (getAllCharactersFallback 1 12).meta.itemCount
      = (getAllCharactersFallback 1 12).items.length :=
  (C1_envelope_invariant_amended 1 12 200 "" ""
    { items := [], meta := ⟨0, 0, 12, 1, 1⟩ } (by decide) (by decide)).1

/-- C2: under any network failure, `listCharacters(page, limit)` returns the
fallback envelope, whose items are the slice of the static dataset from
`(page-1)*limit` of length at most `limit`, with `totalItems` the dataset
length and `totalPages` the ceiling of `totalItems / limit`; concretely on the
bundled 6-record dataset, `listCharacters(1, 12)` yields 6 items with
`totalPages = 1` and `listCharacters(2, 12)` yields 0 items. -/
theorem C2_listCharacters_fallback_slicing
    (net : FetchOutcome (Envelope Character)) (msg : String) (page limit : Nat)
    (hp : 1 ≤ page) (hl : 1 ≤ limit)
    (hfail : fetchAttempt net = .error msg) :
    getAllCharacters net page limit = .ok (getAllCharactersFallback page limit) ∧
    (getAllCharactersFallback page limit).items
        = (mockCharacters.drop ((page - 1) * limit)).take limit ∧
    (getAllCharactersFallback page limit).meta.totalItems
        = mockCharacters.length ∧
    (getAllCharactersFallback page limit).meta.totalPages
        = mockCharacters.length ⌈/⌉ limit ∧
    (getAllCharactersFallback 1 12).items.length = 6 ∧
    (getAllCharactersFallback 1 12).meta.totalPages = 1 ∧
    (getAllCharactersFallback 2 12).items.length = 0 := by
  refine ⟨?_, rfl, rfl, ?_, by decide, by decide, by decide⟩
  · simp [getAllCharacters, hfail]
  · rw [Nat.ceilDiv_eq_add_pred_div]
    rfl

/-- C2 (witness) at a transport failure, `page = 1`, `limit = 12`. -/
theorem C2_listCharacters_fallback_slicing_witness :
    getAllCharacters (FetchOutcome.transportError "Failed to fetch") 1 12
      = .ok (getAllCharactersFallback 1 12) :=
  (C2_listCharacters_fallback_slicing (.transportError "Failed to fetch")
    "Failed to fetch" 1 12 (by decide) (by decide) rfl).1

/-- C3: under any network failure, `getCharacter(id)` looks the identifier up
in the static dataset by `char.id === parseInt(id)` and returns the matching
record when one exists; otherwise it fails with `Character not found`, a
message distinct from (and not containing) the transport-failure text
`Failed to fetch`.  Concretely id `"1"` yields the Goku record and id `"999"`
fails with `Character not found`. -/
theorem C3_getCharacter_fallback_lookup (net : FetchOutcome Character)
    (msg id : String) (hfail : fetchAttempt net = .error msg) :
    (∀ c, mockCharacters.find? (idMatches id) = some c →
        getCharacterById net id = .ok c) ∧
    (mockCharacters.find? (idMatches id) = none →
        getCharacterById net id = .error "Character not found") ∧
    getCharacterById net "1" = .ok goku ∧
    getCharacterById net "999" = .error "Character not found" ∧
    strIncludes "Character not found" "Failed to fetch" = false ∧
    "Character not found" ≠ "Failed to fetch" := by
  refine ⟨?_, ?_, ?_, ?_, by decide, by decide⟩
  · intro c hc
    simp [getCharacterById, hfail, hc]
  · intro hc
    simp [getCharacterById, hfail, hc]
  · simp [getCharacterById, hfail,
      show mockCharacters.find? (idMatches "1") = some goku from by decide]
  · simp [getCharacterById, hfail,
      show mockCharacters.find? (idMatches "999") = none from by decide]

/-- C3 (witness) at a transport failure and id `"1"`. -/
theorem C3_getCharacter_fallback_lookup_witness :
    getCharacterById (FetchOutcome.transportError "Failed to fetch") "1"
      = .ok goku :=
  (C3_getCharacter_fallback_lookup (.transportError "Failed to fetch")
    "Failed to fetch" "1" rfl).2.2.1

/-- C4: under any network failure, `searchCharacters` filters the entire
static dataset with both case-insensitive substring filters (an empty pattern
switches its filter off) and returns an envelope whose `totalItems` and
`itemCount` both equal the filtered length, with `totalPages = 1`; concretely
the name pattern `"goku"` yields exactly the Goku record, and the category
pattern `"saiyan"` yields a result containing Goku and Vegeta. -/
theorem C4_searchCharacters_fallback_filtering
    (net : FetchOutcome (Envelope Character)) (msg name race : String)
    (page limit : Nat) (hfail : fetchAttempt net = .error msg) :
    searchCharacters net name race page limit
        = .ok (searchCharactersFallback name race page limit) ∧
    (∀ c, c ∈ (searchCharactersFallback name race page limit).items ↔
        c ∈ mockCharacters ∧
        (name = "" ∨ strIncludes (strLower c.name) (strLower name) = true) ∧
        (race = "" ∨ strIncludes (strLower c.race) (strLower race) = true)) ∧
    (searchCharactersFallback name race page limit).meta.totalItems
        = (searchCharactersFallback name race page limit).items.length ∧
    (searchCharactersFallback name race page limit).meta.itemCount
        = (searchCharactersFallback name race page limit).items.length ∧
    (searchCharactersFallback name race page limit).meta.totalPages = 1 ∧
    applyFilters "goku" "" mockCharacters = [goku] ∧
    goku ∈ applyFilters "" "saiyan" mockCharacters ∧
    vegeta ∈ applyFilters "" "saiyan" mockCharacters := by
  refine ⟨?_, ?_, rfl, rfl, rfl, by decide, by decide, by decide⟩
  · simp [searchCharacters, hfail]
  · intro c
    exact mem_applyFilters name race mockCharacters c

/-- C4 (witness) at a transport failure with the `"goku"` name pattern. -/
theorem C4_searchCharacters_fallback_filtering_witness :
    searchCharacters (FetchOutcome.transportError "Failed to fetch")
        "goku" "" 1 12
      = .ok (searchCharactersFallback "goku" "" 1 12) :=
  (C4_searchCharacters_fallback_filtering (.transportError "Failed to fetch")
    "Failed to fetch" "goku" "" 1 12 rfl).1

/-- C5: on a successful fetch, `searchCharacters` applies both filters only to
the items of the single fetched page: the result is the remote envelope with
its items replaced by the filtered page items (a sublist of that one page's
items), the remote `meta` kept unchanged. -/
theorem C5_search_success_filters_single_page (status : Nat)
    (data : Envelope Character) (name race : String) (page limit : Nat)
    (hok : jsStatusOk status = true) :
    searchCharacters (.response status (.ok data)) name race page limit
        = .ok { data with items := applyFilters name race data.items } ∧
    (applyFilters name race data.items).Sublist data.items ∧
    (Envelope.mk (applyFilters name race data.items) data.meta).meta
        = data.meta := by
  refine ⟨?_, applyFilters_sublist name race data.items, rfl⟩
  simp [searchCharacters, fetchAttempt, hok]

/-- C5 (witness) at status 200 on a one-item remote page. -/
theorem C5_search_success_filters_single_page_witness :
    searchCharacters
        (.response 200 (.ok { items := [goku], meta := ⟨1, 1, 12, 1, 1⟩ }))
        "goku" "" 1 12
      = .ok { items := applyFilters "goku" "" [goku],
              meta := (⟨1, 1, 12, 1, 1⟩ : Meta) } :=
  (C5_search_success_filters_single_page 200
    { items := [goku], meta := ⟨1, 1, 12, 1, 1⟩ } "goku" "" 1 12 (by decide)).1

/-- C6: for every page ≥ 1 and pageSize ≥ 1 and every network outcome,
`listCharacters` returns an envelope and never raises past its boundary: the
result is always `.ok`, and on every failing outcome — transport failure,
non-success status, or parse failure — the failure is absorbed into the
fallback envelope. -/
theorem C6_listCharacters_absorbs_failures
    (net : FetchOutcome (Envelope Character)) (page limit : Nat)
    (hp : 1 ≤ page) (hl : 1 ≤ limit) :
    (∃ e, getAllCharacters net page limit = .ok e) ∧
    (∀ msg, fetchAttempt net = .error msg →
        getAllCharacters net page limit
          = .ok (getAllCharactersFallback page limit)) ∧
    (∀ msg, net = .transportError msg → fetchAttempt net = .error msg) ∧
    (∀ status body, net = .response status body → jsStatusOk status = false →
        fetchAttempt net = .error ("HTTP error! status: " ++ toString status)) ∧
    (∀ status pmsg, net = .response status (.error pmsg) →
        jsStatusOk status = true → fetchAttempt net = .error pmsg) := by
  refine ⟨?_, ?_, ?_, ?_, ?_⟩
  · unfold getAllCharacters
    cases h : fetchAttempt net with
    | ok data => exact ⟨data, rfl⟩
    | error _ => exact ⟨getAllCharactersFallback page limit, rfl⟩
  · intro msg hfail
    simp [getAllCharacters, hfail]
  · intro msg hnet
    simp [fetchAttempt, hnet]
  · intro status body hnet hbad
    simp [fetchAttempt, hnet, hbad]
  · intro status pmsg hnet hgood
    simp [fetchAttempt, hnet, hgood]

/-- C6 (witness) at a transport failure, `page = 1`, `limit = 12`. -/
theorem C6_listCharacters_absorbs_failures_witness :
    getAllCharacters (FetchOutcome.transportError "Failed to fetch") 1 12
      = .ok (getAllCharactersFallback 1 12) :=
  (C6_listCharacters_absorbs_failures (.transportError "Failed to fetch") 1 12
    (by decide) (by decide)).2.1 "Failed to fetch" rfl

/-- C7: `loadMore()` is a no-op — it issues no fetch (fetch count 0) and
leaves every view-state field unchanged — whenever `loading` is true or
`hasMore` is false; otherwise it performs exactly
`loadCharacters(currentPage + 1, reset = false)` (one fetch). -/
theorem C7_loadMore_guard (st : ListState)
    (svc : Except String (Envelope Character)) :
    (st.loading = true ∨ st.hasMore = false → loadMore st svc = (st, 0)) ∧
    (st.loading = false → st.hasMore = true →
        loadMore st svc
          = (loadCharactersStep st svc (st.currentPage + 1) false, 1)) := by
  constructor
  · rintro (h | h) <;> simp [loadMore, h]
  · intro h1 h2
    simp [loadMore, h1, h2]

/-- C7 (witness): a loading state is left untouched with no fetch issued. -/
theorem C7_loadMore_guard_witness :
    loadMore { characters := [], loading := true, error := "",
               currentPage := 1, totalPages := 1, hasMore := true }
        (.error "Failed to fetch")
      = ({ characters := [], loading := true, error := "",
           currentPage := 1, totalPages := 1, hasMore := true }, 0) :=
  (C7_loadMore_guard _ _).1 (Or.inl rfl)

/-- C8: a failed `load` leaves the previously displayed list unchanged and
sets a non-empty classified error message, with `loading` cleared as the
terminal step on both the success and the failure path; a subsequent
successful `load(page, replace = true)` from the failed state clears the
error and replaces the display list with the response items. -/
theorem C8_load_failure_then_recovery (st : ListState) (msg : String)
    (page page2 : Nat) (reset : Bool) (data : Envelope Character) :
    (loadCharactersStep st (.error msg) page reset).characters
        = st.characters ∧
    (loadCharactersStep st (.error msg) page reset).error
        = handleApiError msg ∧
    (loadCharactersStep st (.error msg) page reset).error ≠ "" ∧
    (loadCharactersStep st (.error msg) page reset).loading = false ∧
    (loadCharactersStep st (.ok data) page reset).loading = false ∧
    (loadCharactersStep (loadCharactersStep st (.error msg) page reset)
        (.ok data) page2 true).error = "" ∧
    (loadCharactersStep (loadCharactersStep st (.error msg) page reset)
        (.ok data) page2 true).characters = data.items := by
  refine ⟨rfl, rfl, handleApiError_ne_empty msg, rfl, ?_, ?_, ?_⟩ <;>
    simp [loadCharactersStep]

/-- C9: the list controller's search operation consults the service only at
`page = 1`, `pageSize = 50`; on success it replaces the display list wholesale
with the response items and forces `hasMore := false` regardless of the result
count, leaving `currentPage`/`totalPages` untouched; on failure it sets the
classified error; `loading` is cleared on both paths. -/
theorem C9_search_controller (svc svc2 :
      String → String → Nat → Nat → Except String (Envelope Character))
    (st : ListState) (name race : String) :
    (∀ data, svc name race 1 50 = .ok data →
        searchStep svc st name race
          = { st with characters := data.items, hasMore := false,
                      error := "", loading := false }) ∧
    (∀ msg, svc name race 1 50 = .error msg →
        searchStep svc st name race
          = { st with error := handleApiError msg, loading := false }) ∧
    (svc name race 1 50 = svc2 name race 1 50 →
        searchStep svc st name race = searchStep svc2 st name race) := by
  refine ⟨?_, ?_, ?_⟩
  · intro data h
    simp [searchStep, h]
  · intro msg h
    simp [searchStep, h]
  · intro h
    unfold searchStep
    rw [h]

/-- C9 (witness): a successful search over the fallback dataset replaces the
list and clears `hasMore`, regardless of the fact that the result is
non-empty. -/
theorem C9_search_controller_witness :
    searchStep
        (fun name race page limit =>
          searchCharacters (.transportError "Failed to fetch")
            name race page limit)
        { characters := [], loading := false, error := "",
          currentPage := 1, totalPages := 1, hasMore := true } "goku" ""
      = { characters := (searchCharactersFallback "goku" "" 1 50).items,
          loading := false, error := "", currentPage := 1, totalPages := 1,
          hasMore := false } :=
  (C9_search_controller
    (fun name race page limit =>
      searchCharacters (.transportError "Failed to fetch") name race page limit)
    (fun name race page limit =>
      searchCharacters (.transportError "Failed to fetch") name race page limit)
    { characters := [], loading := false, error := "",
      currentPage := 1, totalPages := 1, hasMore := true } "goku" "").1
    (searchCharactersFallback "goku" "" 1 50) rfl

/-- C10: when the detail screen loads an identifier absent from the static
dataset under network failure, `getCharacterById` re-throws
`Character not found`, whose text contains neither `404`, `500`, nor
`Failed to fetch`, so `handleApiError` classifies it as the generic
unexpected-error message, not the not-found message. -/
theorem C10_detail_notfound_classified_generic (st : DetailState)
    (net : FetchOutcome Character) (msg id : String)
    (hfail : fetchAttempt net = .error msg)
    (habsent : mockCharacters.find? (idMatches id) = none) :
    (loadCharacterStep st net id).error
        = "An unexpected error occurred. Please try again." ∧
    (loadCharacterStep st net id).error ≠ "Character not found." ∧
    strIncludes "Character not found" "404" = false ∧
    strIncludes "Character not found" "500" = false ∧
    strIncludes "Character not found" "Failed to fetch" = false ∧
    (loadCharacterStep st net id).loading = false := by
  have hres : getCharacterById net id = .error "Character not found" := by
    simp [getCharacterById, hfail, habsent]
  refine ⟨?_, ?_, by decide, by decide, by decide, ?_⟩ <;>
    simp [loadCharacterStep, hres] <;> decide

/-- C10 (witness) at id `"999"` under a transport failure. -/
theorem C10_detail_notfound_classified_generic_witness :
    (loadCharacterStep { character := none, loading := true, error := "" }
        (.transportError "Failed to fetch") "999").error
      = "An unexpected error occurred. Please try again." :=
  (C10_detail_notfound_classified_generic
    { character := none, loading := true, error := "" }
    (.transportError "Failed to fetch") "Failed to fetch" "999" rfl
    (by decide)).1
